import Mathlib

/-!
Verification of the waybar-hovermenu session core (src/menu.rs, src/config.rs,
src/modules.rs) against its natural-language specification.

The menu controller's state and operations are embedded shallowly: external
effects (process spawns, hyprctl window queries, cursor queries) appear as
explicit inputs, and each operation returns the resulting session state plus
an Except mirroring the source's anyhow::Result.  Field and function names
follow the Rust source where Lean allows it.
-/

/-- SessionState mirrors the mutable fields of MenuManager (src/menu.rs:11-19):
pinned, open_module, and the watcher_generation counter (u64 modelled as Nat;
wraparound is out of scope per the spec). -/
structure SessionState where
  pinned : Option String
  open_module : Option String
  watcher_generation : Nat
deriving DecidableEq

/-- DaemonConfig (src/config.rs:14-25). -/
structure DaemonConfig where
  terminal_cmd : String
  waybar_height : Nat
  socket_path : String
  hover : Bool
deriving DecidableEq

/-- ModuleConfig (src/config.rs:50-81); size [u32;2] modelled as a pair. -/
structure ModuleConfig where
  enabled : Bool
  kind : String
  command : Option String
  window_class : Option String
  size : Nat × Nat
  position : String
  action : Option String
  poll_interval : Option Nat
  watch_dir : Option String
deriving DecidableEq

/-- Config (src/config.rs:6-12); the HashMap of modules is modelled as an
association list (lookup by key, value iteration order fixed by the list). -/
structure Config where
  daemon : DaemonConfig
  modules : List (String × ModuleConfig)
deriving DecidableEq

/-- Config::get_module (src/config.rs:122-124). -/
def Config.get_module (cfg : Config) (name : String) : Option ModuleConfig :=
  (cfg.modules.find? (fun p => p.1 == name)).map (fun p => p.2)

/-- default_waybar_height (src/config.rs:42-44). -/
def default_waybar_height : Nat := 32

/-- One hyprctl client record as consumed by the core.  The title, cls
(source field "class"), pid and address fields carry the values after the
source's unwrap_or defaults (src/menu.rs:331-344); at_pos and win_size are
present exactly when the "at" and "size" arrays are present, their components
already defaulted to 0 (src/menu.rs:496-503). -/
structure Client where
  title : String
  cls : String
  pid : Int
  address : String
  at_pos : Option (Int × Int)
  win_size : Option (Int × Int)
deriving DecidableEq

/-- Result of one hyprctl clients query: none when spawning the query process
fails, some none when its stdout is not parseable JSON, some (some cs) when it
parses to the client list cs. -/
abbrev ClientsResp := Option (Option (List Client))

/-- The GUI window classes collected from the configuration
(src/menu.rs:314-317 and 467-470). -/
def gui_classes (cfg : Config) : List String :=
  (cfg.modules.filter (fun p => p.2.kind == "gui")).filterMap (fun p => p.2.window_class)

/-- Whether a client is recognised as a menu window: TUI title marker or a
configured GUI class (src/menu.rs:346-351 and 489-493). -/
def is_menu_window (cfg : Config) (c : Client) : Bool :=
  c.title.startsWith "WAYBAR-MENU:" || (gui_classes cfg).any (fun g => g == c.cls)

/-- The menu windows matched inside close_all_menus (src/menu.rs:330-353). -/
def menu_windows (cfg : Config) (clients : List Client) : List Client :=
  clients.filter (fun c => is_menu_window cfg c)

/-- MenuManager::close_all_menus (src/menu.rs:312-388).  A spawn failure of
the clients query propagates as an error via the source's output()? before any
state change; any received response (unparsable output defaults to an empty
array) leads to matching, animation and SIGTERM of the matched windows (pure
side effects, the matched list is returned here for specification purposes)
and then the unconditional clearing of open_module. -/
def close_all_menus (cfg : Config) (resp : ClientsResp) (s : SessionState) :
    SessionState × Except String (List Client) :=
  match resp with
  | none => (s, Except.error "window query failed")
  | some parsed =>
    let clients := parsed.getD []
    ({ s with open_module := none }, Except.ok (menu_windows cfg clients))

/-- MenuManager::open_menu (src/menu.rs:199-309), state effects only: the
module must have a command (else error, no state change); the spawn of the
menu process may fail (spawnOk), propagating before any state change; on
success open_module is set unconditionally, and when hover mode is enabled the
watcher generation is post-incremented for the new cursor watcher. -/
def open_menu (cfg : Config) (spawnOk : Bool) (m : String) (mc : ModuleConfig)
    (s : SessionState) : Except String SessionState :=
  match mc.command with
  | none => Except.error "Module has no command configured"
  | some _ =>
    if spawnOk then
      let s1 := { s with open_module := some m }
      Except.ok (if cfg.daemon.hover then
        { s1 with watcher_generation := s1.watcher_generation + 1 }
      else s1)
    else Except.error "spawn failed"

/-- External inputs consumed by one hover or click invocation. -/
structure OpInput where
  closeResp : ClientsResp
  spawnOk : Bool

/-- MenuManager::hover (src/menu.rs:49-81).  Returns the resulting state, and
on success the list of windows closed by the internal close_all_menus. -/
def hover (cfg : Config) (inp : OpInput) (m : String) (s : SessionState) :
    SessionState × Except String (List Client) :=
  if !cfg.daemon.hover then (s, Except.ok [])
  else if s.open_module == some m then (s, Except.ok [])
  else
    match cfg.get_module m with
    | none => (s, Except.error "Module not found")
    | some mc =>
      if !mc.enabled then (s, Except.ok [])
      else
        match close_all_menus cfg inp.closeResp s with
        | (s1, Except.error e) => (s1, Except.error e)
        | (s1, Except.ok killed) =>
          let s2 := { s1 with pinned := none }
          match open_menu cfg inp.spawnOk m mc s2 with
          | Except.error e => (s2, Except.error e)
          | Except.ok s3 => (s3, Except.ok killed)

/-- MenuManager::click (src/menu.rs:124-196), state effects only (the border
highlight and mouse jiggle are pure external effects). -/
def click (cfg : Config) (inp : OpInput) (m : String) (s : SessionState) :
    SessionState × Except String Unit :=
  let is_open := s.open_module == some m
  if !cfg.daemon.hover then
    if is_open then
      let (s1, r) := close_all_menus cfg inp.closeResp s
      (s1, r.map (fun _ => ()))
    else
      match cfg.get_module m with
      | none => (s, Except.error "Module not found")
      | some mc =>
        if !mc.enabled then (s, Except.ok ())
        else
          match close_all_menus cfg inp.closeResp s with
          | (s1, Except.error e) => (s1, Except.error e)
          | (s1, Except.ok _) =>
            match open_menu cfg inp.spawnOk m mc s1 with
            | Except.error e => (s1, Except.error e)
            | Except.ok s2 => (s2, Except.ok ())
  else
    if s.pinned == some m then
      let s1 := { s with pinned := none }
      let (s2, r) := close_all_menus cfg inp.closeResp s1
      (s2, r.map (fun _ => ()))
    else if is_open then
      ({ s with pinned := some m }, Except.ok ())
    else
      match cfg.get_module m with
      | none => (s, Except.error "Module not found")
      | some mc =>
        if !mc.enabled then (s, Except.ok ())
        else
          match close_all_menus cfg inp.closeResp s with
          | (s1, Except.error e) => (s1, Except.error e)
          | (s1, Except.ok _) =>
            match open_menu cfg inp.spawnOk m mc s1 with
            | Except.error e => (s1, Except.error e)
            | Except.ok s2 => ({ s2 with pinned := some m }, Except.ok ())

/-- Result of one hyprctl cursorpos query as consumed by get_cursor_pos: none
when spawning fails, some none when stdout is unparsable, some (some (x?, y?))
when it parses, with the optional x and y integer fields. -/
abbrev CursorResp := Option (Option (Option Int × Option Int))

/-- MenuManager::get_cursor_pos (src/menu.rs:448-463): missing fields default
to x = 0, y = 100; any failure yields the fixed default (0, 100). -/
def get_cursor_pos (resp : CursorResp) : Int × Int :=
  match resp with
  | some (some (x?, y?)) => (x?.getD 0, y?.getD 100)
  | _ => (0, 100)

/-- MenuManager::is_cursor_over_menu (src/menu.rs:466-518): any query failure
yields false; otherwise true iff some menu window with position and size
contains the cursor within a 10 pixel buffer. -/
def is_cursor_over_menu (cfg : Config) (resp : ClientsResp) (cx cy : Int) : Bool :=
  match resp with
  | some (some clients) =>
    clients.any (fun c =>
      is_menu_window cfg c &&
      (match c.at_pos, c.win_size with
       | some (wx, wy), some (ww, wh) =>
         cx ≥ wx - 10 && cx < wx + ww + 10 && cy ≥ wy - 10 && cy < wy + wh + 10
       | _, _ => false))
  | _ => false

/-- External observations of one safe-zone check: a cursorpos query and a
clients query. -/
structure LeaveObs where
  cursor : CursorResp
  clients : ClientsResp

/-- One safe-zone check: bar-height test first (src/menu.rs:105), then the
menu bounding-box test (src/menu.rs:110). -/
def leave_safe (cfg : Config) (o : LeaveObs) : Bool :=
  let p := get_cursor_pos o.cursor
  p.2 ≤ (cfg.daemon.waybar_height : Int) || is_cursor_over_menu cfg o.clients p.1 p.2

/-- The debounce loop of MenuManager::leave (src/menu.rs:99-113): true iff all
remaining iterations observe the cursor outside the safe zone (a safe
observation returns early). -/
def leave_loop (cfg : Config) (obs : Nat → LeaveObs) : Nat → Nat → Bool
  | _, 0 => true
  | i, n + 1 => !leave_safe cfg (obs i) && leave_loop cfg obs (i + 1) n

/-- MenuManager::leave (src/menu.rs:86-119).  Returns the resulting state, the
operation result, and the number of close_all_menus invocations performed. -/
def leave (cfg : Config) (obs : Nat → LeaveObs) (closeResp : ClientsResp)
    (s : SessionState) : SessionState × Except String Unit × Nat :=
  if !cfg.daemon.hover then (s, Except.ok (), 0)
  else if s.pinned.isSome then (s, Except.ok (), 0)
  else if leave_loop cfg obs 0 6 then
    let (s1, r) := close_all_menus cfg closeResp s
    (s1, r.map (fun _ => ()), 1)
  else (s, Except.ok (), 0)

/-- Outcome of one iteration of the cursor watcher loop
(src/menu.rs:263-304): the three cancellation checks in source order, then the
safe-zone check driving the consecutive-outside counter, closing at the
threshold CHECKS_BEFORE_CLOSE = 5. -/
inductive WatcherStep where
  | stopNewGeneration
  | stopPinned
  | stopClosed
  | closeMenus
  | next (outsideCount : Nat)
deriving DecidableEq

/-- One iteration of the cursor watcher loop (src/menu.rs:263-304), reading
the session state s as observed at the start of the iteration. -/
def watcher_iteration (cfg : Config) (generation : Nat) (s : SessionState)
    (o : LeaveObs) (outsideCount : Nat) : WatcherStep :=
  if s.watcher_generation ≠ generation then WatcherStep.stopNewGeneration
  else if s.pinned.isSome then WatcherStep.stopPinned
  else if s.open_module.isNone then WatcherStep.stopClosed
  else
    let p := get_cursor_pos o.cursor
    let in_waybar := p.2 ≤ (cfg.daemon.waybar_height : Int)
    let over_menu := is_cursor_over_menu cfg o.clients p.1 p.2
    if in_waybar || over_menu then WatcherStep.next 0
    else if outsideCount + 1 ≥ 5 then WatcherStep.closeMenus
    else WatcherStep.next (outsideCount + 1)

/-- How a cursor watcher run ended. -/
inductive WatcherExit where
  | newGeneration
  | pinnedStop
  | closedStop
  | closedMenus
  | ranOut
deriving DecidableEq

/-- The cursor watcher loop run against a trace of observed session states and
cursor observations (one per poll iteration), with fuel bounding the number of
iterations examined.  The source loop is infinite until one of its exits
fires; fuel only truncates the model. -/
def watcher_run (cfg : Config) (generation : Nat)
    (trace : Nat → SessionState × LeaveObs) : Nat → Nat → Nat → WatcherExit
  | _, _, 0 => WatcherExit.ranOut
  | i, count, fuel + 1 =>
    match watcher_iteration cfg generation (trace i).1 (trace i).2 count with
    | WatcherStep.stopNewGeneration => WatcherExit.newGeneration
    | WatcherStep.stopPinned => WatcherExit.pinnedStop
    | WatcherStep.stopClosed => WatcherExit.closedStop
    | WatcherStep.closeMenus => WatcherExit.closedMenus
    | WatcherStep.next c => watcher_run cfg generation trace (i + 1) c fuel

/-- Bool test for the Except results of the operations above. -/
def except_ok {α : Type} (e : Except String α) : Bool :=
  match e with
  | Except.ok _ => true
  | Except.error _ => false

/-- The events of the session transition system: the external intents hover,
click and leave, one cursor-watcher poll iteration, and a close-all-menus
invocation, each carrying the external inputs it consumes. -/
inductive Event where
  | hoverEv (m : String) (inp : OpInput)
  | clickEv (m : String) (inp : OpInput)
  | leaveEv (obs : Nat → LeaveObs) (closeResp : ClientsResp)
  | watcherEv (generation : Nat) (o : LeaveObs) (outsideCount : Nat) (closeResp : ClientsResp)
  | closeAllEv (resp : ClientsResp)

/-- The state reached after one event.  A watcher iteration mutates state only
when it reaches the close threshold, in which case it invokes close_all_menus
with its error ignored (src/menu.rs:298). -/
def session_step (cfg : Config) (s : SessionState) : Event → SessionState
  | Event.hoverEv m inp => (hover cfg inp m s).1
  | Event.clickEv m inp => (click cfg inp m s).1
  | Event.leaveEv obs closeResp => (leave cfg obs closeResp s).1
  | Event.watcherEv generation o outsideCount closeResp =>
    match watcher_iteration cfg generation s o outsideCount with
    | WatcherStep.closeMenus => (close_all_menus cfg closeResp s).1
    | _ => s
  | Event.closeAllEv resp => (close_all_menus cfg resp s).1

/-- The reachable session states: the initial empty state (src/menu.rs:22-29)
and everything obtainable by events. -/
inductive Reachable (cfg : Config) : SessionState → Prop where
  | init : Reachable cfg ⟨none, none, 0⟩
  | trans {s : SessionState} (e : Event) (h : Reachable cfg s) :
      Reachable cfg (session_step cfg s e)

/-- The "audio" module of the default configuration (src/config.rs:131-145). -/
def audio_mod : ModuleConfig :=
  ⟨true, "gui", some "pavucontrol", some "org.pulseaudio.pavucontrol",
   (600, 400), "top-right", some "pactl set-sink-mute @DEFAULT_SINK@ toggle",
   none, none⟩

/-- An enabled TUI module whose config carries no command (command is optional
in ModuleConfig, src/config.rs:60). -/
def broken_mod : ModuleConfig :=
  ⟨true, "tui", none, none, (600, 400), "top-right", none, none, none⟩

/-- A concrete configuration with hover mode enabled: the default daemon
settings except hover, an audio module and a command-less module. -/
def example_config : Config :=
  ⟨⟨"foot -T {title} {command}", 32, "/tmp/waybar-hovermenu.sock", true⟩,
   [("audio", audio_mod), ("broken", broken_mod)]⟩

/-- A configuration whose bar height is 100, matching the hard-coded default
cursor y of get_cursor_pos. -/
def tall_bar_config : Config :=
  ⟨⟨"foot -T {title} {command}", 100, "/tmp/waybar-hovermenu.sock", true⟩, []⟩

/-- The states traversed by click(m) while hover mode is enabled and m is
pinned (src/menu.rs:149-155): the pin is cleared first (one lock-guarded
mutation), then close_all_menus clears open_module. -/
def click_pinned_trace (cfg : Config) (closeResp : ClientsResp) (s : SessionState) :
    List SessionState :=
  let s1 := { s with pinned := none }
  [s, s1, (close_all_menus cfg closeResp s1).1]

/-- Folding successful menu opens over a list of (module, config) pairs
(spawns succeeding; a failed open leaves the state unchanged). -/
def open_seq (cfg : Config) (ms : List (String × ModuleConfig)) (s : SessionState) :
    SessionState :=
  ms.foldl (fun st p =>
    match open_menu cfg true p.1 p.2 st with
    | Except.ok st' => st'
    | Except.error _ => st) s

/-- ModuleStatus (src/modules.rs:8-15): the waybar JSON record; the source
field "class" is named cls here (class is a Lean keyword).  The serde
attributes skip class and tooltip exactly when they are empty strings. -/
structure ModuleStatus where
  text : String
  cls : String
  tooltip : String
deriving DecidableEq

/-- ModuleStatus::new (src/modules.rs:18-24). -/
def ModuleStatus.new (text : String) : ModuleStatus :=
  ⟨text, "", ""⟩

/-- ModuleStatus::with_class (src/modules.rs:26-29). -/
def ModuleStatus.with_class (s : ModuleStatus) (cls : String) : ModuleStatus :=
  { s with cls := cls }

/-- ModuleStatus::with_tooltip (src/modules.rs:31-34). -/
def ModuleStatus.with_tooltip (s : ModuleStatus) (tooltip : String) : ModuleStatus :=
  { s with tooltip := tooltip }

/-- The key-value pairs emitted by the derived serde serializer for
ModuleStatus, in declaration order: text always, class and tooltip skipped
exactly when empty (skip_serializing_if, src/modules.rs:10-14). -/
def status_fields (s : ModuleStatus) : List (String × String) :=
  [("text", s.text)]
    ++ (if s.cls == "" then [] else [("class", s.cls)])
    ++ (if s.tooltip == "" then [] else [("tooltip", s.tooltip)])

/-- The keys present in the serialized JSON object. -/
def status_keys (s : ModuleStatus) : List String :=
  (status_fields s).map Prod.fst

/-- Lower-case hexadecimal digit. -/
def hex_digit (n : Nat) : Char :=
  if n < 10 then Char.ofNat (48 + n) else Char.ofNat (87 + n)

/-- JSON string escaping as performed by serde_json: quote, backslash, the
named control escapes, and \u00XX for the remaining control characters. -/
def escape_json_char (c : Char) : String :=
  if c = '"' then "\\\""
  else if c = '\\' then "\\\\"
  else if c = Char.ofNat 8 then "\\b"
  else if c = Char.ofNat 12 then "\\f"
  else if c = '\n' then "\\n"
  else if c = '\r' then "\\r"
  else if c = '\t' then "\\t"
  else if c.toNat < 32 then
    String.mk ['\\', 'u', '0', '0', hex_digit (c.toNat / 16), hex_digit (c.toNat % 16)]
  else String.mk [c]

/-- JSON string escaping lifted to strings. -/
def escape_json (s : String) : String :=
  String.join (s.data.map escape_json_char)

/-- Rendering of a JSON object from its fields, as serde_json::to_string
emits it (no whitespace). -/
def render_json_obj (fields : List (String × String)) : String :=
  "\x7b" ++
    String.intercalate ","
      (fields.map (fun p => "\"" ++ escape_json p.1 ++ "\":\"" ++ escape_json p.2 ++ "\"")) ++
  "\x7d"

/-- ModuleStatus::to_json (src/modules.rs:36-38): serialization of this record
cannot fail, so the unwrap_or_else fallback is unreachable. -/
def ModuleStatus.to_json (s : ModuleStatus) : String :=
  render_json_obj (status_fields s)

/-- Rust str::contains for a non-empty literal pattern. -/
def str_contains (s pat : String) : Bool :=
  (s.splitOn pat).length != 1

/-- Rust str::lines: newline-terminated or newline-separated lines, a trailing
carriage return stripped from each line. -/
def rust_lines (s : String) : List String :=
  if s == "" then []
  else
    let parts := s.splitOn "\n"
    let parts := if parts.getLast? == some "" then parts.dropLast else parts
    parts.map (fun l => if l.endsWith "\r" then l.dropRight 1 else l)

/-- Rust str::split_whitespace. -/
def split_ws (s : String) : List String :=
  (s.split Char.isWhitespace).filter (fun t => t != "")

/-- Rust str::trim_end_matches for the colon character. -/
def trim_end_colons (s : String) : String :=
  String.mk ((s.data.reverse.dropWhile (fun c => c == ':')).reverse)

/-- get_audio_status (src/modules.rs:64-98).  External inputs: the pactl
get-sink-mute stdout (none when the spawn fails) and the vol script stdout
(none when the spawn fails). -/
def get_audio_status (muteOut volOut : Option String) : ModuleStatus :=
  let muted := (muteOut.map (fun o => str_contains o "yes")).getD false
  if muted then ModuleStatus.new ""
  else
    let volume : Nat := (volOut.map (fun o => (o.trim.toNat?).getD 0)).getD 0
    let icon := if volume == 0 then ""
      else if volume < 50 then ""
      else ""
    ModuleStatus.new (icon ++ " " ++ toString volume ++ "%")

/-- get_bluetooth_status (src/modules.rs:100-140).  External inputs: the
bluetoothctl show stdout and the bluetoothctl devices Connected stdout. -/
def get_bluetooth_status (showOut connectedOut : Option String) : ModuleStatus :=
  let powered := (showOut.map (fun o => str_contains o "Powered: yes")).getD false
  let bt_icon := ""
  if !powered then ModuleStatus.new (bt_icon ++ " off")
  else
    let name :=
      match connectedOut with
      | some stdout =>
        match (rust_lines stdout).head? with
        | some line => String.intercalate " " ((split_ws line).drop 2)
        | none => ""
      | none => ""
    if name != "" then ModuleStatus.new (bt_icon ++ " " ++ name)
    else ModuleStatus.new (bt_icon ++ " on")

/-- get_network_status (src/modules.rs:142-191).  External inputs: the iwctl
station show stdout and the ip link show up stdout. -/
def get_network_status (wifiOut ethOut : Option String) : ModuleStatus :=
  let wifi_icon := ""
  let eth_icon := ""
  let st : Bool × String :=
    match wifiOut with
    | some stdout =>
      (rust_lines stdout).foldl (fun (acc : Bool × String) line =>
        let connected := if str_contains line "State" && str_contains line "connected"
          then true else acc.1
        let ssid := if str_contains line "Connected network"
          then ((split_ws line).getLast?).getD "" else acc.2
        (connected, ssid)) (false, "")
    | none => (false, "")
  if st.1 && st.2 != "" then ModuleStatus.new (wifi_icon ++ " " ++ st.2)
  else
    let ethHit :=
      match ethOut with
      | some stdout =>
        (rust_lines stdout).any (fun line =>
          let iface := trim_end_colons (((split_ws line).get? 1).getD "")
          iface.startsWith "en" && str_contains line "state UP")
      | none => false
    if ethHit then ModuleStatus.new eth_icon
    else ModuleStatus.new (wifi_icon ++ " off")

/-- get_cpu_status (src/modules.rs:193-218).  External input: the contents of
/proc/stat (none when the read fails; unwrap_or_default).  The source's
parts.len() >= 4 guard is rendered as the four-element list pattern. -/
def get_cpu_status (statOut : Option String) : ModuleStatus :=
  let stat := statOut.getD ""
  match (rust_lines stat).head? with
  | some cpu_line =>
    let parts : List Nat := ((split_ws cpu_line).drop 1).filterMap String.toNat?
    match parts with
    | user :: _ :: system :: idle :: _ =>
      let total := user + system + idle
      if total > 0 then
        ModuleStatus.new (" " ++ toString ((user + system) * 100 / total) ++ "%")
      else ModuleStatus.new " ?%"
    | _ => ModuleStatus.new " ?%"
  | none => ModuleStatus.new " ?%"

/-- get_battery_status (src/modules.rs:220-266).  External input: none when no
battery directory is found under /sys/class/power_supply, otherwise the
results of reading its capacity and status files. -/
def get_battery_status (battery : Option (Option String × Option String)) : ModuleStatus :=
  match battery with
  | none => ModuleStatus.new ""
  | some (capRead, statusRead) =>
    let capacity := (capRead.map String.trim).getD "?"
    let status := (statusRead.map String.trim).getD "Unknown"
    let cap_num : Nat := (capacity.toNat?).getD 0
    let bat_icon :=
      if status == "Charging" then ""
      else if status == "Full" then ""
      else if cap_num > 75 then ""
      else if cap_num > 50 then ""
      else if cap_num > 25 then ""
      else if cap_num > 10 then ""
      else ""
    let text :=
      if status == "Full" then bat_icon
      else if status == "Charging" then bat_icon ++ " " ++ capacity ++ "%"
      else bat_icon ++ " " ++ capacity ++ "%"
    ModuleStatus.new text

/-- get_mail_status (src/modules.rs:268-300).  The maildir walk counting files
under INBOX/new is filesystem I/O, abstracted as the resulting unread count
(0 when the mail directory does not exist). -/
def get_mail_status (unread : Nat) : ModuleStatus :=
  let envelope := ""
  if unread > 0 then ModuleStatus.new (envelope ++ " " ++ toString unread)
  else ModuleStatus.new envelope

/-- get_calendar_status (src/modules.rs:302-311).  External input: the date
command stdout (none when the spawn fails). -/
def get_calendar_status (dateOut : Option String) : ModuleStatus :=
  let output := (dateOut.map String.trim).getD "???"
  ModuleStatus.new (" " ++ output)

/-- get_localsend_status (src/modules.rs:313-315). -/
def get_localsend_status : ModuleStatus :=
  ModuleStatus.new "↑↓"

/-- get_vpn_status (src/modules.rs:317-329).  External input: the ip link show
wg0 stdout (none when the spawn fails). -/
def get_vpn_status (wgOut : Option String) : ModuleStatus :=
  let shield_icon := ""
  let up := (wgOut.map (fun o => str_contains o "UP")).getD false
  if up then ModuleStatus.new shield_icon
  else ModuleStatus.new (shield_icon ++ " off")

/-- get_surfshark_status (src/modules.rs:331-333). -/
def get_surfshark_status : ModuleStatus :=
  ModuleStatus.new ""

/-- The external observations consumed by the per-module status probes. -/
structure StatusEnv where
  audioMuteOut : Option String
  audioVolOut : Option String
  btShowOut : Option String
  btConnectedOut : Option String
  wifiOut : Option String
  ethOut : Option String
  cpuStatOut : Option String
  batteryFiles : Option (Option String × Option String)
  mailUnread : Nat
  dateOut : Option String
  wgOut : Option String

/-- get_status (src/modules.rs:42-62): dispatch on the module name (the Rust
match over string literals, rendered as an equality chain), then the pinned
flag overwrites the class with "pinned". -/
def get_status (env : StatusEnv) (module : String) (pinned : Bool) : ModuleStatus :=
  let status :=
    if module == "audio" then get_audio_status env.audioMuteOut env.audioVolOut
    else if module == "bluetooth" then get_bluetooth_status env.btShowOut env.btConnectedOut
    else if module == "network" then get_network_status env.wifiOut env.ethOut
    else if module == "cpu" then get_cpu_status env.cpuStatOut
    else if module == "battery" then get_battery_status env.batteryFiles
    else if module == "mail" then get_mail_status env.mailUnread
    else if module == "calendar" then get_calendar_status env.dateOut
    else if module == "localsend" then get_localsend_status
    else if module == "vpn" then get_vpn_status env.wgOut
    else if module == "surfshark" then get_surfshark_status
    else ModuleStatus.new "?"
  if pinned then { status with cls := "pinned" } else status

/-- The spec's pin/open agreement, in the form that survives on the code:
whenever both a pinned and an open module are recorded, they are the same
module. -/
def pin_consistent (s : SessionState) : Prop :=
  ∀ m m', s.pinned = some m → s.open_module = some m' → m = m'

/-- The inductive invariant of the session transition system: pin/open
agreement, plus the fact that with hover mode disabled no event ever sets a
pin. -/
def session_inv (cfg : Config) (s : SessionState) : Prop :=
  pin_consistent s ∧ (cfg.daemon.hover = false → s.pinned = none)

theorem pin_consistent_of_open_none {s : SessionState} (h : s.open_module = none) :
    pin_consistent s := by
  intro m m' _ ho
  rw [h] at ho
  exact absurd ho (by simp)

theorem pin_consistent_of_pinned_none {s : SessionState} (h : s.pinned = none) :
    pin_consistent s := by
  intro m m' hp _
  rw [h] at hp
  exact absurd hp (by simp)

theorem pin_consistent_of_same {s : SessionState} {m : String}
    (h1 : s.pinned = some m) (h2 : s.open_module = some m) : pin_consistent s := by
  intro a b ha hb
  rw [h1] at ha
  rw [h2] at hb
  exact (Option.some_injective _ ha).symm.trans (Option.some_injective _ hb)

theorem close_all_state (cfg : Config) (resp : ClientsResp) (s : SessionState) :
    (close_all_menus cfg resp s).1 = s ∨
    (close_all_menus cfg resp s).1 = { s with open_module := none } := by
  cases resp with
  | none => exact Or.inl rfl
  | some p => exact Or.inr rfl

theorem close_all_error_state {cfg : Config} {resp : ClientsResp} {s s1 : SessionState}
    {e : String} (h : close_all_menus cfg resp s = (s1, Except.error e)) : s1 = s := by
  cases resp with
  | none => exact (congrArg Prod.fst h).symm
  | some p => exact absurd (congrArg Prod.snd h) (by simp [close_all_menus])

theorem close_all_ok_state {cfg : Config} {resp : ClientsResp} {s s1 : SessionState}
    {w : List Client} (h : close_all_menus cfg resp s = (s1, Except.ok w)) :
    s1 = { s with open_module := none } := by
  cases resp with
  | none => exact absurd (congrArg Prod.snd h) (by simp [close_all_menus])
  | some p => exact (congrArg Prod.fst h).symm.trans rfl

theorem open_menu_ok_state {cfg : Config} {ok : Bool} {m : String} {mc : ModuleConfig}
    {s s' : SessionState} (h : open_menu cfg ok m mc s = Except.ok s') :
    s'.pinned = s.pinned ∧ s'.open_module = some m := by
  unfold open_menu at h
  cases hc : mc.command with
  | none => rw [hc] at h; exact absurd h (by simp)
  | some c =>
    rw [hc] at h
    by_cases hok : ok
    · rw [if_pos hok] at h
      have := Except.ok.inj h
      subst this
      by_cases hh : cfg.daemon.hover
      · rw [if_pos hh]; exact ⟨rfl, rfl⟩
      · rw [if_neg hh]; exact ⟨rfl, rfl⟩
    · rw [if_neg hok] at h; exact absurd h (by simp)


theorem close_all_recv (cfg : Config) (r : Option (List Client)) (s : SessionState) :
    close_all_menus cfg (some r) s =
      ({ s with open_module := none }, Except.ok (menu_windows cfg (r.getD []))) := rfl

theorem close_all_fail (cfg : Config) (s : SessionState) :
    close_all_menus cfg none s = (s, Except.error "window query failed") := rfl

theorem open_menu_eval_hover {cfg : Config} {m : String} {mc : ModuleConfig} {c : String}
    (s : SessionState) (hh : cfg.daemon.hover = true) (hc : mc.command = some c) :
    open_menu cfg true m mc s =
      Except.ok { s with open_module := some m,
                         watcher_generation := s.watcher_generation + 1 } := by
  simp [open_menu, hc, hh]

theorem open_menu_eval_nohover {cfg : Config} {m : String} {mc : ModuleConfig} {c : String}
    (s : SessionState) (hh : cfg.daemon.hover = false) (hc : mc.command = some c) :
    open_menu cfg true m mc s = Except.ok { s with open_module := some m } := by
  simp [open_menu, hc, hh]

theorem open_menu_no_command {cfg : Config} {b : Bool} {m : String} {mc : ModuleConfig}
    (s : SessionState) (hc : mc.command = none) :
    open_menu cfg b m mc s = Except.error "Module has no command configured" := by
  simp [open_menu, hc]

theorem open_menu_spawn_fail {cfg : Config} {m : String} {mc : ModuleConfig} {c : String}
    (s : SessionState) (hc : mc.command = some c) :
    open_menu cfg false m mc s = Except.error "spawn failed" := by
  simp [open_menu, hc]

theorem hover_disabled {cfg : Config} (inp : OpInput) (m : String) (s : SessionState)
    (hh : cfg.daemon.hover = false) : hover cfg inp m s = (s, Except.ok []) := by
  simp [hover, hh]

theorem hover_already_open {cfg : Config} (inp : OpInput) {m : String} {s : SessionState}
    (hh : cfg.daemon.hover = true) (ho : s.open_module = some m) :
    hover cfg inp m s = (s, Except.ok []) := by
  simp [hover, hh, ho]

theorem hover_no_module {cfg : Config} (inp : OpInput) {m : String} {s : SessionState}
    (hh : cfg.daemon.hover = true) (ho : s.open_module ≠ some m)
    (hm : cfg.get_module m = none) :
    hover cfg inp m s = (s, Except.error "Module not found") := by
  simp [hover, hh, beq_eq_false_iff_ne.mpr ho, hm]

theorem hover_module_disabled {cfg : Config} (inp : OpInput) {m : String} {s : SessionState}
    {mc : ModuleConfig} (hh : cfg.daemon.hover = true) (ho : s.open_module ≠ some m)
    (hm : cfg.get_module m = some mc) (he : mc.enabled = false) :
    hover cfg inp m s = (s, Except.ok []) := by
  simp [hover, hh, beq_eq_false_iff_ne.mpr ho, hm, he]

theorem hover_query_fail {cfg : Config} {b : Bool} {m : String} {s : SessionState}
    {mc : ModuleConfig} (hh : cfg.daemon.hover = true) (ho : s.open_module ≠ some m)
    (hm : cfg.get_module m = some mc) (he : mc.enabled = true) :
    hover cfg ⟨none, b⟩ m s = (s, Except.error "window query failed") := by
  simp [hover, hh, beq_eq_false_iff_ne.mpr ho, hm, he, close_all_menus]

theorem hover_no_command {cfg : Config} {b : Bool} {m : String} {s : SessionState}
    {mc : ModuleConfig} {r : Option (List Client)}
    (hh : cfg.daemon.hover = true) (ho : s.open_module ≠ some m)
    (hm : cfg.get_module m = some mc) (he : mc.enabled = true) (hc : mc.command = none) :
    hover cfg ⟨some r, b⟩ m s =
      ({ s with pinned := none, open_module := none },
       Except.error "Module has no command configured") := by
  simp [hover, hh, beq_eq_false_iff_ne.mpr ho, hm, he, close_all_menus, open_menu, hc]

theorem hover_spawn_fail {cfg : Config} {m : String} {s : SessionState}
    {mc : ModuleConfig} {c : String} {r : Option (List Client)}
    (hh : cfg.daemon.hover = true) (ho : s.open_module ≠ some m)
    (hm : cfg.get_module m = some mc) (he : mc.enabled = true) (hc : mc.command = some c) :
    hover cfg ⟨some r, false⟩ m s =
      ({ s with pinned := none, open_module := none }, Except.error "spawn failed") := by
  simp [hover, hh, beq_eq_false_iff_ne.mpr ho, hm, he, close_all_menus, open_menu, hc]

theorem hover_opens {cfg : Config} {m : String} {s : SessionState}
    {mc : ModuleConfig} {c : String} {r : Option (List Client)}
    (hh : cfg.daemon.hover = true) (ho : s.open_module ≠ some m)
    (hm : cfg.get_module m = some mc) (he : mc.enabled = true) (hc : mc.command = some c) :
    hover cfg ⟨some r, true⟩ m s =
      ({ s with pinned := none, open_module := some m,
                watcher_generation := s.watcher_generation + 1 },
       Except.ok (menu_windows cfg (r.getD []))) := by
  simp [hover, hh, beq_eq_false_iff_ne.mpr ho, hm, he, close_all_menus, open_menu, hc]

theorem click_pinned_recv {cfg : Config} {b : Bool} {m : String} {s : SessionState}
    {r : Option (List Client)} (hh : cfg.daemon.hover = true) (hp : s.pinned = some m) :
    click cfg ⟨some r, b⟩ m s =
      ({ s with pinned := none, open_module := none }, Except.ok ()) := by
  simp [click, hh, hp, close_all_menus, Except.map]

theorem click_pinned_fail {cfg : Config} {b : Bool} {m : String} {s : SessionState}
    (hh : cfg.daemon.hover = true) (hp : s.pinned = some m) :
    click cfg ⟨none, b⟩ m s =
      ({ s with pinned := none }, Except.error "window query failed") := by
  simp [click, hh, hp, close_all_menus, Except.map]

theorem click_pins_open {cfg : Config} (inp : OpInput) {m : String} {s : SessionState}
    (hh : cfg.daemon.hover = true) (hp : s.pinned ≠ some m) (ho : s.open_module = some m) :
    click cfg inp m s = ({ s with pinned := some m }, Except.ok ()) := by
  simp [click, hh, beq_eq_false_iff_ne.mpr hp, ho]

theorem click_no_module {cfg : Config} (inp : OpInput) {m : String} {s : SessionState}
    (hp : s.pinned ≠ some m) (ho : s.open_module ≠ some m)
    (hm : cfg.get_module m = none) :
    click cfg inp m s = (s, Except.error "Module not found") := by
  cases hh : cfg.daemon.hover <;>
    simp [click, hh, beq_eq_false_iff_ne.mpr hp, beq_eq_false_iff_ne.mpr ho, hm]

theorem click_module_disabled {cfg : Config} (inp : OpInput) {m : String} {s : SessionState}
    {mc : ModuleConfig} (hp : s.pinned ≠ some m) (ho : s.open_module ≠ some m)
    (hm : cfg.get_module m = some mc) (he : mc.enabled = false) :
    click cfg inp m s = (s, Except.ok ()) := by
  cases hh : cfg.daemon.hover <;>
    simp [click, hh, beq_eq_false_iff_ne.mpr hp, beq_eq_false_iff_ne.mpr ho, hm, he]

theorem click_query_fail {cfg : Config} {b : Bool} {m : String} {s : SessionState}
    {mc : ModuleConfig} (hp : s.pinned ≠ some m) (ho : s.open_module ≠ some m)
    (hm : cfg.get_module m = some mc) (he : mc.enabled = true) :
    click cfg ⟨none, b⟩ m s = (s, Except.error "window query failed") := by
  cases hh : cfg.daemon.hover <;>
    simp [click, hh, beq_eq_false_iff_ne.mpr hp, beq_eq_false_iff_ne.mpr ho, hm, he,
      close_all_menus]

theorem click_no_command {cfg : Config} {b : Bool} {m : String} {s : SessionState}
    {mc : ModuleConfig} {r : Option (List Client)}
    (hp : s.pinned ≠ some m) (ho : s.open_module ≠ some m)
    (hm : cfg.get_module m = some mc) (he : mc.enabled = true) (hc : mc.command = none) :
    click cfg ⟨some r, b⟩ m s =
      ({ s with open_module := none },
       Except.error "Module has no command configured") := by
  cases hh : cfg.daemon.hover <;>
    simp [click, hh, beq_eq_false_iff_ne.mpr hp, beq_eq_false_iff_ne.mpr ho, hm, he,
      close_all_menus, open_menu, hc]

theorem click_spawn_fail {cfg : Config} {m : String} {s : SessionState}
    {mc : ModuleConfig} {c : String} {r : Option (List Client)}
    (hp : s.pinned ≠ some m) (ho : s.open_module ≠ some m)
    (hm : cfg.get_module m = some mc) (he : mc.enabled = true) (hc : mc.command = some c) :
    click cfg ⟨some r, false⟩ m s =
      ({ s with open_module := none }, Except.error "spawn failed") := by
  cases hh : cfg.daemon.hover <;>
    simp [click, hh, beq_eq_false_iff_ne.mpr hp, beq_eq_false_iff_ne.mpr ho, hm, he,
      close_all_menus, open_menu, hc]

theorem click_opens_pinned {cfg : Config} {m : String} {s : SessionState}
    {mc : ModuleConfig} {c : String} {r : Option (List Client)}
    (hh : cfg.daemon.hover = true) (hp : s.pinned ≠ some m) (ho : s.open_module ≠ some m)
    (hm : cfg.get_module m = some mc) (he : mc.enabled = true) (hc : mc.command = some c) :
    click cfg ⟨some r, true⟩ m s =
      ({ s with pinned := some m, open_module := some m,
                watcher_generation := s.watcher_generation + 1 }, Except.ok ()) := by
  simp [click, hh, beq_eq_false_iff_ne.mpr hp, beq_eq_false_iff_ne.mpr ho, hm, he,
    close_all_menus, open_menu, hc]

theorem click_disabled_toggle_close {cfg : Config} {b : Bool} {m : String} {s : SessionState}
    {r : Option (List Client)} (hh : cfg.daemon.hover = false) (ho : s.open_module = some m) :
    click cfg ⟨some r, b⟩ m s = ({ s with open_module := none }, Except.ok ()) := by
  simp [click, hh, ho, close_all_menus, Except.map]

theorem click_disabled_toggle_close_fail {cfg : Config} {b : Bool} {m : String}
    {s : SessionState} (hh : cfg.daemon.hover = false) (ho : s.open_module = some m) :
    click cfg ⟨none, b⟩ m s = (s, Except.error "window query failed") := by
  simp [click, hh, ho, close_all_menus, Except.map]

theorem click_disabled_opens {cfg : Config} {m : String} {s : SessionState}
    {mc : ModuleConfig} {c : String} {r : Option (List Client)}
    (hh : cfg.daemon.hover = false) (ho : s.open_module ≠ some m)
    (hm : cfg.get_module m = some mc) (he : mc.enabled = true) (hc : mc.command = some c) :
    click cfg ⟨some r, true⟩ m s =
      ({ s with open_module := some m }, Except.ok ()) := by
  simp [click, hh, beq_eq_false_iff_ne.mpr ho, hm, he, close_all_menus, open_menu, hc]

theorem leave_state_cases (cfg : Config) (obs : Nat → LeaveObs) (closeResp : ClientsResp)
    (s : SessionState) :
    (leave cfg obs closeResp s).1 = s ∨
    ((leave cfg obs closeResp s).1.open_module = none ∧
      (leave cfg obs closeResp s).1.pinned = s.pinned) := by
  rcases closeResp with _ | r
  · unfold leave
    split
    · exact Or.inl rfl
    split
    · exact Or.inl rfl
    split
    · exact Or.inl rfl
    · exact Or.inl rfl
  · unfold leave
    split
    · exact Or.inl rfl
    split
    · exact Or.inl rfl
    split
    · exact Or.inr ⟨rfl, rfl⟩
    · exact Or.inl rfl

theorem session_step_inv (cfg : Config) (s : SessionState) (e : Event)
    (h : session_inv cfg s) : session_inv cfg (session_step cfg s e) := by
  cases e with
  | hoverEv m inp =>
    simp only [session_step]
    by_cases hh : cfg.daemon.hover = true
    case neg =>
      rw [hover_disabled inp m s (by simpa using hh)]
      exact h
    case pos =>
      by_cases ho : s.open_module = some m
      · rw [hover_already_open inp hh ho]; exact h
      · rcases hm : cfg.get_module m with _ | mc
        · rw [hover_no_module inp hh ho hm]; exact h
        · by_cases he : mc.enabled = true
          · rcases inp with ⟨cr, b⟩
            rcases cr with _ | r
            · rw [hover_query_fail hh ho hm he]; exact h
            · rcases hc : mc.command with _ | c
              · rw [hover_no_command hh ho hm he hc]
                exact ⟨pin_consistent_of_pinned_none rfl, fun _ => rfl⟩
              · cases b
                · rw [hover_spawn_fail hh ho hm he hc]
                  exact ⟨pin_consistent_of_pinned_none rfl, fun _ => rfl⟩
                · rw [hover_opens hh ho hm he hc]
                  exact ⟨pin_consistent_of_pinned_none rfl, fun _ => rfl⟩
          · rw [hover_module_disabled inp hh ho hm (by simpa using he)]; exact h
  | clickEv m inp =>
    simp only [session_step]
    by_cases hh : cfg.daemon.hover = true
    case pos =>
      by_cases hp : s.pinned = some m
      · rcases inp with ⟨cr, b⟩
        rcases cr with _ | r
        · rw [click_pinned_fail hh hp]
          exact ⟨pin_consistent_of_pinned_none rfl, fun _ => rfl⟩
        · rw [click_pinned_recv hh hp]
          exact ⟨pin_consistent_of_pinned_none rfl, fun _ => rfl⟩
      · by_cases ho : s.open_module = some m
        · rw [click_pins_open inp hh hp ho]
          exact ⟨pin_consistent_of_same rfl ho,
            fun hf => (Bool.false_ne_true (hf.symm.trans hh)).elim⟩
        · rcases hm : cfg.get_module m with _ | mc
          · rw [click_no_module inp hp ho hm]; exact h
          · by_cases he : mc.enabled = true
            · rcases inp with ⟨cr, b⟩
              rcases cr with _ | r
              · rw [click_query_fail hp ho hm he]; exact h
              · rcases hc : mc.command with _ | c
                · rw [click_no_command hp ho hm he hc]
                  exact ⟨pin_consistent_of_open_none rfl, fun hf => h.2 hf⟩
                · cases b
                  · rw [click_spawn_fail hp ho hm he hc]
                    exact ⟨pin_consistent_of_open_none rfl, fun hf => h.2 hf⟩
                  · rw [click_opens_pinned hh hp ho hm he hc]
                    exact ⟨pin_consistent_of_same rfl rfl,
                      fun hf => (Bool.false_ne_true (hf.symm.trans hh)).elim⟩
            · rw [click_module_disabled inp hp ho hm (by simpa using he)]; exact h
    case neg =>
      have hh' : cfg.daemon.hover = false := by simpa using hh
      have hpn : s.pinned = none := h.2 hh'
      by_cases ho : s.open_module = some m
      · rcases inp with ⟨cr, b⟩
        rcases cr with _ | r
        · rw [click_disabled_toggle_close_fail hh' ho]; exact h
        · rw [click_disabled_toggle_close hh' ho]
          exact ⟨pin_consistent_of_open_none rfl, fun _ => hpn⟩
      · have hp : s.pinned ≠ some m := by rw [hpn]; exact fun hx => Option.noConfusion hx
        rcases hm : cfg.get_module m with _ | mc
        · rw [click_no_module inp hp ho hm]; exact h
        · by_cases he : mc.enabled = true
          · rcases inp with ⟨cr, b⟩
            rcases cr with _ | r
            · rw [click_query_fail hp ho hm he]; exact h
            · rcases hc : mc.command with _ | c
              · rw [click_no_command hp ho hm he hc]
                exact ⟨pin_consistent_of_open_none rfl, fun _ => hpn⟩
              · cases b
                · rw [click_spawn_fail hp ho hm he hc]
                  exact ⟨pin_consistent_of_open_none rfl, fun _ => hpn⟩
                · rw [click_disabled_opens hh' ho hm he hc]
                  exact ⟨pin_consistent_of_pinned_none hpn, fun _ => hpn⟩
          · rw [click_module_disabled inp hp ho hm (by simpa using he)]; exact h
  | leaveEv obs closeResp =>
    simp only [session_step]
    rcases leave_state_cases cfg obs closeResp s with hc | ⟨ho, hp⟩
    · rw [hc]; exact h
    · exact ⟨pin_consistent_of_open_none ho, fun hf => hp.trans (h.2 hf)⟩
  | watcherEv generation o outsideCount closeResp =>
    simp only [session_step]
    split
    · rcases close_all_state cfg closeResp s with hc | hc <;> rw [hc]
      · exact h
      · exact ⟨pin_consistent_of_open_none rfl, fun hf => h.2 hf⟩
    · exact h
  | closeAllEv resp =>
    simp only [session_step]
    rcases close_all_state cfg resp s with hc | hc <;> rw [hc]
    · exact h
    · exact ⟨pin_consistent_of_open_none rfl, fun hf => h.2 hf⟩

theorem reachable_inv (cfg : Config) (s : SessionState) (h : Reachable cfg s) :
    session_inv cfg s := by
  induction h with
  | init => exact ⟨pin_consistent_of_pinned_none rfl, fun _ => rfl⟩
  | trans e _ ih => exact session_step_inv cfg _ e ih

/-- C1 (amended): for every reachable session state, whenever both a pinned
module and an open module are recorded they name the same module.  The
original claim (pinned always implies an equal open module) fails: close-all
never clears the pin, and a click that pins a module followed by a failed open
of another module leaves the pin with no open menu (see the
counterexample). -/
theorem c1_reachable_pin_open_agree (cfg : Config) (s : SessionState)
    (h : Reachable cfg s) : pin_consistent s :=
  (reachable_inv cfg s h).1

theorem c1_reachable_pin_open_agree_witness :
    Reachable example_config ⟨none, none, 0⟩ ∧ pin_consistent ⟨none, none, 0⟩ :=
  ⟨Reachable.init,
   c1_reachable_pin_open_agree example_config ⟨none, none, 0⟩ Reachable.init⟩

/-- C1 counterexample: a reachable state with a pinned module and no open
menu.  From the initial state, click "audio" (hover enabled: opens and pins
it), then click the enabled but command-less module "broken": the second click
runs close_all_menus (clearing open_module, keeping the pin) before open_menu
fails on the missing command, ending with pinned = some "audio" and
open_module = none. -/
theorem c1_counterexample :
    Reachable example_config ⟨some "audio", none, 1⟩ ∧
    (⟨some "audio", none, 1⟩ : SessionState).pinned = some "audio" ∧
    (⟨some "audio", none, 1⟩ : SessionState).open_module ≠ some "audio" := by
  refine ⟨?_, rfl, by decide⟩
  have h0 : Reachable example_config ⟨none, none, 0⟩ := Reachable.init
  have h1 := Reachable.trans (Event.clickEv "audio" ⟨some (some []), true⟩) h0
  have h2 := Reachable.trans (Event.clickEv "broken" ⟨some (some []), true⟩) h1
  have e2 : session_step example_config
      (session_step example_config ⟨none, none, 0⟩
        (Event.clickEv "audio" ⟨some (some []), true⟩))
      (Event.clickEv "broken" ⟨some (some []), true⟩) = ⟨some "audio", none, 1⟩ := by
    decide
  exact e2 ▸ h2

/-- C2 (amended): with hover mode enabled, click(m) on a state where m is
pinned ends in the Closed state (pin cleared, open_module cleared) whenever
the window query is received; but the operation first clears the pin and only
then closes, so its intermediate-state trace is exactly
[Open-Pinned(m), Open-Unpinned(m), Closed] — the transient Open-Unpinned(m)
state the original claim excludes does occur (see the counterexample). -/
theorem c2_click_pinned_closes (cfg : Config) (r : Option (List Client)) (b : Bool)
    (m : String) (s : SessionState) (hh : cfg.daemon.hover = true)
    (hp : s.pinned = some m) :
    (click cfg ⟨some r, b⟩ m s).1 = { s with pinned := none, open_module := none } ∧
    (click cfg ⟨some r, b⟩ m s).2 = Except.ok () ∧
    click_pinned_trace cfg (some r) s =
      [s, { s with pinned := none }, { s with pinned := none, open_module := none }] := by
  rw [click_pinned_recv hh hp]
  exact ⟨rfl, rfl, rfl⟩

theorem c2_click_pinned_closes_witness :
    example_config.daemon.hover = true ∧
    (⟨some "audio", some "audio", 1⟩ : SessionState).pinned = some "audio" ∧
    (click example_config ⟨some (some []), true⟩ "audio"
        ⟨some "audio", some "audio", 1⟩).1 = ⟨none, none, 1⟩ :=
  ⟨rfl, rfl,
   (c2_click_pinned_closes example_config (some []) true "audio"
     ⟨some "audio", some "audio", 1⟩ rfl rfl).1⟩

/-- C2 counterexample: during click("audio") from Open-Pinned("audio"), the
state after the unpin mutation and before close_all_menus completes is
Open-Unpinned("audio") — open_module = some "audio" with pinned = none — which
the original claim says is never traversed. -/
theorem c2_counterexample :
    (⟨none, some "audio", 1⟩ : SessionState) ∈
      click_pinned_trace example_config (some (some []))
        ⟨some "audio", some "audio", 1⟩ ∧
    (⟨none, some "audio", 1⟩ : SessionState).open_module = some "audio" ∧
    (⟨none, some "audio", 1⟩ : SessionState).pinned = none := by
  exact ⟨by decide, rfl, rfl⟩

/-- C3 (amended): for a module missing from the configuration or disabled,
hover and click decline with no state change and no crash; for a module with
no launch command, the generation counter is unchanged and no menu opens,
but the missing command is only detected after close_all_menus has already
run, so any previously open menu has been closed (open_module cleared, and
hover additionally clears the pin). -/
theorem c3_config_errors (cfg : Config) (inp : OpInput) (m : String) (mc : ModuleConfig)
    (r : Option (List Client)) (b : Bool) (s : SessionState)
    (hpin : s.pinned ≠ some m) (hopen : s.open_module ≠ some m) :
    (cfg.get_module m = none →
      (hover cfg inp m s).1 = s ∧ (click cfg inp m s).1 = s ∧
      except_ok (click cfg inp m s).2 = false ∧
      (cfg.daemon.hover = true → except_ok (hover cfg inp m s).2 = false)) ∧
    (cfg.get_module m = some mc → mc.enabled = false →
      (hover cfg inp m s).1 = s ∧ (click cfg inp m s).1 = s) ∧
    (cfg.get_module m = some mc → mc.enabled = true → mc.command = none →
      (hover cfg ⟨some r, b⟩ m s).1.watcher_generation = s.watcher_generation ∧
      (click cfg ⟨some r, b⟩ m s).1.watcher_generation = s.watcher_generation ∧
      (cfg.daemon.hover = true →
        (hover cfg ⟨some r, b⟩ m s).1 = { s with pinned := none, open_module := none }) ∧
      (click cfg ⟨some r, b⟩ m s).1 = { s with open_module := none } ∧
      except_ok (click cfg ⟨some r, b⟩ m s).2 = false) := by
  refine ⟨fun hm => ⟨?_, ?_, ?_, ?_⟩, fun hm he => ⟨?_, ?_⟩, fun hm he hc => ⟨?_, ?_, ?_, ?_, ?_⟩⟩
  · by_cases hh : cfg.daemon.hover = true
    · rw [hover_no_module inp hh hopen hm]
    · rw [hover_disabled inp m s (by simpa using hh)]
  · rw [click_no_module inp hpin hopen hm]
  · rw [click_no_module inp hpin hopen hm]; rfl
  · intro hh; rw [hover_no_module inp hh hopen hm]; rfl
  · by_cases hh : cfg.daemon.hover = true
    · rw [hover_module_disabled inp hh hopen hm he]
    · rw [hover_disabled inp m s (by simpa using hh)]
  · rw [click_module_disabled inp hpin hopen hm he]
  · by_cases hh : cfg.daemon.hover = true
    · rw [hover_no_command hh hopen hm he hc]
    · rw [hover_disabled ⟨some r, b⟩ m s (by simpa using hh)]
  · rw [click_no_command hpin hopen hm he hc]
  · intro hh; rw [hover_no_command hh hopen hm he hc]
  · rw [click_no_command hpin hopen hm he hc]
  · rw [click_no_command hpin hopen hm he hc]; rfl

theorem c3_config_errors_witness :
    (⟨none, some "audio", 3⟩ : SessionState).pinned ≠ some "missing" ∧
    (⟨none, some "audio", 3⟩ : SessionState).open_module ≠ some "missing" ∧
    example_config.get_module "missing" = none ∧
    (hover example_config ⟨some (some []), true⟩ "missing" ⟨none, some "audio", 3⟩).1 =
      ⟨none, some "audio", 3⟩ :=
  ⟨by decide, by decide, by decide,
   ((c3_config_errors example_config ⟨some (some []), true⟩ "missing" broken_mod
     (some []) true ⟨none, some "audio", 3⟩ (by decide) (by decide)).1 (by decide)).1⟩

/-- C3 counterexample: the module "broken" is enabled but has no launch
command; hover("broken") from a state with the "audio" menu open declines with
an error, yet it has closed the open menu — the session state changed, against
the original claim that every configuration error leaves the state
unchanged. -/
theorem c3_counterexample :
    example_config.get_module "broken" = some broken_mod ∧
    broken_mod.enabled = true ∧ broken_mod.command = none ∧
    (hover example_config ⟨some (some []), true⟩ "broken" ⟨none, some "audio", 3⟩).1 ≠
      ⟨none, some "audio", 3⟩ := by
  exact ⟨by decide, rfl, rfl, by decide⟩

/-- C4 (amended): for every window-system response actually received —
including unparsable output (defaulted to an empty list) and an empty window
list — close_all_menus returns successfully with the matched windows, ends
with open_module = none, and is idempotent; only when the window-query
process itself cannot be spawned does it return an error, leaving the state
unchanged. -/
theorem c4_close_all_received_ok (cfg : Config) (r r' : Option (List Client))
    (s : SessionState) :
    (close_all_menus cfg (some r) s).2 = Except.ok (menu_windows cfg (r.getD [])) ∧
    (close_all_menus cfg (some r) s).1.open_module = none ∧
    (close_all_menus cfg (some r') (close_all_menus cfg (some r) s).1).1 =
      (close_all_menus cfg (some r) s).1 ∧
    (close_all_menus cfg (some (some [])) s).2 = Except.ok [] ∧
    (close_all_menus cfg none s).2 = Except.error "window query failed" ∧
    (close_all_menus cfg none s).1 = s :=
  ⟨rfl, rfl, rfl, rfl, rfl, rfl⟩

/-- C4 counterexample: when spawning the window-query process fails, the
source's output()? propagates: close_all_menus returns an error and does not
clear open_module, against the claim that it succeeds for every window-system
response including failures and always ends with open_module = none. -/
theorem c4_counterexample :
    except_ok (close_all_menus example_config none ⟨none, some "audio", 0⟩).2 = false ∧
    (close_all_menus example_config none ⟨none, some "audio", 0⟩).1.open_module ≠ none := by
  exact ⟨rfl, by decide⟩

/-- C8 (amended): a failed cursor query — the query process failing to spawn,
or its output failing to parse — yields the fixed default position (0, 100),
whose vertical coordinate exceeds the configured bar height exactly when that
height is below 100; in particular it lies below the default bar height
(32). -/
theorem c8_cursor_default (h : Nat) :
    get_cursor_pos none = (0, 100) ∧
    get_cursor_pos (some none) = (0, 100) ∧
    (h < 100 → ¬((get_cursor_pos none).2 ≤ (h : Int))) ∧
    ¬((get_cursor_pos none).2 ≤ (default_waybar_height : Int)) := by
  refine ⟨rfl, rfl, ?_, by decide⟩
  intro hlt hle
  have h100 : (100 : Int) ≤ (h : Int) := hle
  omega

theorem c8_cursor_default_witness :
    (32 : Nat) < 100 ∧ ¬((get_cursor_pos none).2 ≤ ((32 : Nat) : Int)) :=
  ⟨by decide, (c8_cursor_default 32).2.2.1 (by decide)⟩

/-- C8 counterexample: with a configured bar height of 100 the failed-query
default (0, 100) does not lie below the bar: its vertical coordinate passes
the in-bar test, so a failed query counts as a safe observation, against the
claim that this holds for every bar-height configuration. -/
theorem c8_counterexample :
    tall_bar_config.daemon.waybar_height = 100 ∧
    (get_cursor_pos none).2 ≤ (tall_bar_config.daemon.waybar_height : Int) ∧
    leave_safe tall_bar_config ⟨none, some (some [])⟩ = true := by
  exact ⟨rfl, by decide, by decide⟩

/-- C10 (amended): close_all_menus never modifies pinned_module or the watcher
generation counter — a pinned module stays recorded as pinned, so callers must
clear the pin themselves; whenever the window query is received it sets
open_module to none, but when spawning the query fails it errors with the
whole state (open_module included) unchanged. -/
theorem c10_close_all_frame (cfg : Config) (resp : ClientsResp)
    (r : Option (List Client)) (s : SessionState) :
    (close_all_menus cfg resp s).1.pinned = s.pinned ∧
    (close_all_menus cfg resp s).1.watcher_generation = s.watcher_generation ∧
    (close_all_menus cfg (some r) s).1 = { s with open_module := none } ∧
    (close_all_menus cfg none s).1 = s := by
  refine ⟨?_, ?_, rfl, rfl⟩ <;> rcases resp with _ | p <;> rfl

/-- C10 counterexample: when the window-query spawn fails, close_all_menus
does not set open_module to none, against the claim that it does so for every
prior state. -/
theorem c10_counterexample :
    (close_all_menus example_config none ⟨none, some "audio", 4⟩).1.open_module ≠ none := by
  decide

theorem open_seq_generation (cfg : Config) (ms : List (String × ModuleConfig)) :
    ∀ s : SessionState, cfg.daemon.hover = true →
      (∀ p ∈ ms, (p.2.command).isSome = true) →
      (open_seq cfg ms s).watcher_generation = s.watcher_generation + ms.length := by
  induction ms with
  | nil => intro s _ _; rfl
  | cons p rest ih =>
    intro s hh hall
    obtain ⟨c, hc⟩ := Option.isSome_iff_exists.mp (hall p (by simp))
    have hstep : open_seq cfg (p :: rest) s =
        open_seq cfg rest { s with open_module := some p.1,
                                   watcher_generation := s.watcher_generation + 1 } := by
      simp only [open_seq, List.foldl_cons]
      rw [open_menu_eval_hover s hh hc]
    rw [hstep, ih _ hh (fun q hq => hall q (by simp [hq]))]
    simp only [List.length_cons]
    omega

/-- C5: with hover mode enabled a successful menu open increments the watcher
generation by exactly one (so a sequence of N opens increases it by exactly N,
strictly increasing), no increment occurs when hover mode is disabled, and a
cursor watcher that captured generation G stops immediately — without
invoking close-all — at any iteration that observes a generation different
from G. -/
theorem c5_generation_monotonic (cfg : Config) (m : String) (mc : ModuleConfig) (c : String)
    (s t : SessionState) (ms : List (String × ModuleConfig)) (G outsideCount fuel : Nat)
    (o : LeaveObs) (trace : Nat → SessionState × LeaveObs) :
    (cfg.daemon.hover = true → mc.command = some c →
      open_menu cfg true m mc s =
        Except.ok { s with open_module := some m,
                           watcher_generation := s.watcher_generation + 1 }) ∧
    (cfg.daemon.hover = true → (∀ p ∈ ms, (p.2.command).isSome = true) →
      (open_seq cfg ms s).watcher_generation = s.watcher_generation + ms.length) ∧
    (cfg.daemon.hover = false → mc.command = some c →
      open_menu cfg true m mc s = Except.ok { s with open_module := some m }) ∧
    (t.watcher_generation ≠ G →
      watcher_iteration cfg G t o outsideCount = WatcherStep.stopNewGeneration) ∧
    ((trace 0).1.watcher_generation ≠ G →
      watcher_run cfg G trace 0 outsideCount (fuel + 1) = WatcherExit.newGeneration) := by
  refine ⟨fun hh hc => open_menu_eval_hover s hh hc,
          fun hh hall => open_seq_generation cfg ms s hh hall,
          fun hh hc => open_menu_eval_nohover s hh hc,
          fun hne => ?_, fun hne => ?_⟩
  · unfold watcher_iteration
    rw [if_pos hne]
  · have hstop : watcher_iteration cfg G (trace 0).1 (trace 0).2 outsideCount =
        WatcherStep.stopNewGeneration := by
      unfold watcher_iteration
      rw [if_pos hne]
    simp only [watcher_run, hstop]

theorem c5_generation_monotonic_witness :
    example_config.daemon.hover = true ∧
    audio_mod.command = some "pavucontrol" ∧
    (⟨none, none, 5⟩ : SessionState).watcher_generation ≠ 3 ∧
    open_menu example_config true "audio" audio_mod ⟨none, none, 0⟩ =
      Except.ok ⟨none, some "audio", 1⟩ ∧
    watcher_iteration example_config 3 ⟨none, none, 5⟩ ⟨none, some (some [])⟩ 0 =
      WatcherStep.stopNewGeneration := by
  refine ⟨rfl, rfl, by decide, ?_, ?_⟩
  · exact (c5_generation_monotonic example_config "audio" audio_mod "pavucontrol"
      ⟨none, none, 0⟩ ⟨none, none, 5⟩ [] 3 0 0 ⟨none, some (some [])⟩
      (fun _ => (⟨none, none, 5⟩, ⟨none, some (some [])⟩))).1 rfl rfl
  · exact (c5_generation_monotonic example_config "audio" audio_mod "pavucontrol"
      ⟨none, none, 0⟩ ⟨none, none, 5⟩ [] 3 0 0 ⟨none, some (some [])⟩
      (fun _ => (⟨none, none, 5⟩, ⟨none, some (some [])⟩))).2.2.2.1 (by decide)

/-- C6: with hover mode enabled, hover(m) is a no-op when m is already open;
from the Closed state it opens m unpinned (incrementing the generation); while
a different module m1 is open unpinned it ends Open-Unpinned(m) and its
close-all pass matches every menu window in the response (in particular m1's);
with hover mode disabled hover is always a no-op. -/
theorem c6_hover_transitions (cfg : Config) (inp : OpInput) (m m1 : String)
    (mc : ModuleConfig) (c : String) (r : Option (List Client)) (cl : Client)
    (l : List Client) (s : SessionState) :
    (cfg.daemon.hover = false → hover cfg inp m s = (s, Except.ok [])) ∧
    (cfg.daemon.hover = true → s.open_module = some m →
      hover cfg inp m s = (s, Except.ok [])) ∧
    (cfg.daemon.hover = true → s.open_module = none → s.pinned = none →
      cfg.get_module m = some mc → mc.enabled = true → mc.command = some c →
      hover cfg ⟨some r, true⟩ m s =
        ({ s with pinned := none, open_module := some m,
                  watcher_generation := s.watcher_generation + 1 },
         Except.ok (menu_windows cfg (r.getD [])))) ∧
    (cfg.daemon.hover = true → s.open_module = some m1 → m1 ≠ m → s.pinned = none →
      cfg.get_module m = some mc → mc.enabled = true → mc.command = some c →
      hover cfg ⟨some r, true⟩ m s =
        ({ s with pinned := none, open_module := some m,
                  watcher_generation := s.watcher_generation + 1 },
         Except.ok (menu_windows cfg (r.getD [])))) ∧
    (cl ∈ l → is_menu_window cfg cl = true → cl ∈ menu_windows cfg l) := by
  refine ⟨fun hh => hover_disabled inp m s hh,
          fun hh ho => hover_already_open inp hh ho,
          fun hh ho _ hm he hc => ?_,
          fun hh ho hne _ hm he hc => ?_,
          fun hmem hw => List.mem_filter.mpr ⟨hmem, hw⟩⟩
  · exact hover_opens hh (by rw [ho]; exact fun hx => Option.noConfusion hx) hm he hc
  · refine hover_opens hh ?_ hm he hc
    rw [ho]
    exact fun hx => hne (Option.some_injective _ hx)

theorem c6_hover_transitions_witness :
    example_config.daemon.hover = true ∧
    example_config.get_module "audio" = some audio_mod ∧
    hover example_config ⟨some (some []), true⟩ "audio" ⟨none, none, 0⟩ =
      (⟨none, some "audio", 1⟩, Except.ok []) := by
  refine ⟨rfl, by decide, ?_⟩
  have h3 := (c6_hover_transitions example_config ⟨some (some []), true⟩ "audio" "x"
      audio_mod "pavucontrol" (some []) ⟨"", "", 0, "", none, none⟩ [] ⟨none, none, 0⟩).2.2.1
      rfl rfl rfl (by decide) rfl rfl
  simpa using h3

theorem leave_loop_all_outside (cfg : Config) (obs : Nat → LeaveObs) :
    ∀ (n i : Nat), leave_loop cfg obs i n = true ↔
      ∀ j, j < n → leave_safe cfg (obs (i + j)) = false := by
  intro n
  induction n with
  | zero => intro i; simp [leave_loop]
  | succ k ih =>
    intro i
    simp only [leave_loop, Bool.and_eq_true, Bool.not_eq_true']
    constructor
    · rintro ⟨hs, hrest⟩ j hj
      cases j with
      | zero => simpa using hs
      | succ j' =>
        have hr := (ih (i + 1)).mp hrest j' (by omega)
        have harith : i + 1 + j' = i + (j' + 1) := by omega
        rwa [harith] at hr
    · intro hall
      refine ⟨by simpa using hall 0 (by omega), (ih (i + 1)).mpr ?_⟩
      intro j hj
      have hr := hall (j + 1) (by omega)
      have harith : i + (j + 1) = i + 1 + j := by omega
      rwa [harith] at hr

theorem leave_loop_congr (cfg : Config) (obs obs' : Nat → LeaveObs) :
    ∀ (n i : Nat), (∀ j, j < n → obs (i + j) = obs' (i + j)) →
      leave_loop cfg obs i n = leave_loop cfg obs' i n := by
  intro n
  induction n with
  | zero => intro i _; rfl
  | succ k ih =>
    intro i hj
    simp only [leave_loop]
    rw [show obs i = obs' i from by simpa using hj 0 (by omega)]
    rw [ih (i + 1) (fun j hjk => by
      have hr := hj (j + 1) (by omega)
      have harith : i + (j + 1) = i + 1 + j := by omega
      rwa [harith] at hr)]

/-- C7: leave is a no-op when hover mode is disabled or any module is pinned
(regardless of observations); otherwise its bounded debounce examines at most
the first 6 safe-zone observations, aborts without closing on the first safe
one, and invokes close-all-menus exactly once precisely when all 6
observations are outside the safe zone. -/
theorem c7_leave_debounce (cfg : Config) (obs obs' : Nat → LeaveObs)
    (closeResp : ClientsResp) (r : Option (List Client)) (s : SessionState) (i : Nat) :
    (cfg.daemon.hover = false → leave cfg obs closeResp s = (s, Except.ok (), 0)) ∧
    (cfg.daemon.hover = true → s.pinned.isSome = true →
      leave cfg obs closeResp s = (s, Except.ok (), 0)) ∧
    (cfg.daemon.hover = true → s.pinned = none →
      ((leave cfg obs closeResp s).2.2 = 1 ↔ ∀ j, j < 6 → leave_safe cfg (obs j) = false)) ∧
    (cfg.daemon.hover = true → s.pinned = none → i < 6 → leave_safe cfg (obs i) = true →
      (leave cfg obs closeResp s).1 = s ∧ (leave cfg obs closeResp s).2.2 = 0) ∧
    (cfg.daemon.hover = true → s.pinned = none →
      (∀ j, j < 6 → leave_safe cfg (obs j) = false) →
      (leave cfg obs (some r) s).1 = { s with open_module := none } ∧
      (leave cfg obs (some r) s).2.2 = 1) ∧
    ((∀ j, j < 6 → obs j = obs' j) →
      leave cfg obs closeResp s = leave cfg obs' closeResp s) := by
  refine ⟨fun hh => by simp [leave, hh],
          fun hh hp => by simp [leave, hh, hp],
          fun hh hp => ?_, fun hh hp hi hsafe => ?_, fun hh hp hall => ?_, fun hobs => ?_⟩
  · have hps : s.pinned.isSome = false := by rw [hp]; rfl
    by_cases hl : leave_loop cfg obs 0 6 = true
    · rcases hcr : close_all_menus cfg closeResp s with ⟨s1, rr⟩
      have hev : leave cfg obs closeResp s = (s1, rr.map (fun _ => ()), 1) := by
        simp [leave, hh, hps, hl, hcr]
      rw [hev]
      constructor
      · intro _ j hj
        have hu := (leave_loop_all_outside cfg obs 6 0).mp hl j hj
        simpa using hu
      · intro _; rfl
    · have hev : leave cfg obs closeResp s = (s, Except.ok (), 0) := by
        simp [leave, hh, hps, hl]
      rw [hev]
      constructor
      · intro h01; simp at h01
      · intro hall
        exact absurd ((leave_loop_all_outside cfg obs 6 0).mpr
          (fun j hj => by simpa using hall j hj)) hl
  · have hps : s.pinned.isSome = false := by rw [hp]; rfl
    have hl : leave_loop cfg obs 0 6 ≠ true := by
      intro hl
      have hu := (leave_loop_all_outside cfg obs 6 0).mp hl i hi
      rw [Nat.zero_add] at hu
      rw [hsafe] at hu
      exact Bool.noConfusion hu
    have hev : leave cfg obs closeResp s = (s, Except.ok (), 0) := by
      simp [leave, hh, hps, hl]
    rw [hev]
    exact ⟨rfl, rfl⟩
  · have hps : s.pinned.isSome = false := by rw [hp]; rfl
    have hl : leave_loop cfg obs 0 6 = true :=
      (leave_loop_all_outside cfg obs 6 0).mpr (fun j hj => by simpa using hall j hj)
    have hev : leave cfg obs (some r) s =
        ({ s with open_module := none }, Except.ok (), 1) := by
      simp [leave, hh, hps, hl, close_all_menus, Except.map]
    rw [hev]
    exact ⟨rfl, rfl⟩
  · unfold leave
    rw [leave_loop_congr cfg obs obs' 6 0 (fun j hj => by simpa using hobs j hj)]

theorem c7_leave_debounce_witness :
    example_config.daemon.hover = true ∧
    (⟨some "audio", some "audio", 1⟩ : SessionState).pinned.isSome = true ∧
    leave example_config (fun _ => ⟨none, some (some [])⟩) (some (some []))
        ⟨some "audio", some "audio", 1⟩ =
      (⟨some "audio", some "audio", 1⟩, Except.ok (), 0) :=
  ⟨rfl, rfl,
   (c7_leave_debounce example_config (fun _ => ⟨none, some (some [])⟩)
     (fun _ => ⟨none, some (some [])⟩) (some (some [])) (some [])
     ⟨some "audio", some "audio", 1⟩ 0).2.1 rfl rfl⟩

theorem get_audio_status_cls (a b : Option String) : (get_audio_status a b).cls = "" := by
  unfold get_audio_status
  dsimp only
  split <;> rfl

theorem get_bluetooth_status_cls (a b : Option String) :
    (get_bluetooth_status a b).cls = "" := by
  unfold get_bluetooth_status
  dsimp only
  split
  · rfl
  · split <;> rfl

theorem get_network_status_cls (a b : Option String) :
    (get_network_status a b).cls = "" := by
  unfold get_network_status
  dsimp only
  split
  · rfl
  · split <;> rfl

theorem get_cpu_status_cls (a : Option String) : (get_cpu_status a).cls = "" := by
  unfold get_cpu_status
  dsimp only
  split
  · split
    · split <;> rfl
    · rfl
  · rfl

theorem get_battery_status_cls (a : Option (Option String × Option String)) :
    (get_battery_status a).cls = "" := by
  rcases a with _ | ⟨cr, st⟩ <;> rfl

theorem get_mail_status_cls (n : Nat) : (get_mail_status n).cls = "" := by
  unfold get_mail_status
  dsimp only
  split <;> rfl

theorem get_vpn_status_cls (a : Option String) : (get_vpn_status a).cls = "" := by
  unfold get_vpn_status
  dsimp only
  split <;> rfl

theorem get_status_false_cls (env : StatusEnv) (m : String) :
    (get_status env m false).cls = "" := by
  show (if m == "audio" then get_audio_status env.audioMuteOut env.audioVolOut
    else if m == "bluetooth" then get_bluetooth_status env.btShowOut env.btConnectedOut
    else if m == "network" then get_network_status env.wifiOut env.ethOut
    else if m == "cpu" then get_cpu_status env.cpuStatOut
    else if m == "battery" then get_battery_status env.batteryFiles
    else if m == "mail" then get_mail_status env.mailUnread
    else if m == "calendar" then get_calendar_status env.dateOut
    else if m == "localsend" then get_localsend_status
    else if m == "vpn" then get_vpn_status env.wgOut
    else if m == "surfshark" then get_surfshark_status
    else ModuleStatus.new "?").cls = ""
  split
  · exact get_audio_status_cls _ _
  split
  · exact get_bluetooth_status_cls _ _
  split
  · exact get_network_status_cls _ _
  split
  · exact get_cpu_status_cls _
  split
  · exact get_battery_status_cls _
  split
  · exact get_mail_status_cls _
  split
  · rfl
  split
  · rfl
  split
  · exact get_vpn_status_cls _
  split
  · rfl
  rfl

/-- C9: the serde serializer for a status record always emits the text key and
omits the class and tooltip keys exactly when their values are empty strings;
get_status with the pinned flag true always yields class "pinned", and with
the flag false yields an empty class (every per-module probe leaves class
empty), so the class key is then absent. -/
theorem c9_status_serialization (st : ModuleStatus) (env : StatusEnv) (m : String) :
    "text" ∈ status_keys st ∧
    ("class" ∈ status_keys st ↔ st.cls ≠ "") ∧
    ("tooltip" ∈ status_keys st ↔ st.tooltip ≠ "") ∧
    (get_status env m true).cls = "pinned" ∧
    (get_status env m false).cls = "" := by
  refine ⟨?_, ?_, ?_, rfl, get_status_false_cls env m⟩ <;>
    by_cases hc : st.cls = "" <;> by_cases ht : st.tooltip = "" <;>
      simp [status_keys, status_fields, hc, ht]

theorem c9_status_serialization_witness :
    "text" ∈ status_keys ⟨"42%", "pinned", ""⟩ ∧
    ("class" ∈ status_keys ⟨"42%", "pinned", ""⟩ ↔ ("pinned" : String) ≠ "") ∧
    (get_status ⟨none, none, none, none, none, none, none, none, 0, none, none⟩
      "audio" true).cls = "pinned" :=
  ⟨(c9_status_serialization ⟨"42%", "pinned", ""⟩
      ⟨none, none, none, none, none, none, none, none, 0, none, none⟩ "audio").1,
   (c9_status_serialization ⟨"42%", "pinned", ""⟩
      ⟨none, none, none, none, none, none, none, none, 0, none, none⟩ "audio").2.1,
   (c9_status_serialization ⟨"42%", "pinned", ""⟩
      ⟨none, none, none, none, none, none, none, none, 0, none, none⟩ "audio").2.2.2.1⟩
